import Mathlib

/-!
Shallow embedding of the intersection-classification core of the
`ideuy_controls` repository (module `controls/postgis_controls/pgdb.py`,
plus the pairwise scan driver in `controls/postgis_controls/main.py`),
with theorems settling the frozen behavioural claims about it.

Conventions of the embedding:
* GeoJSON coordinate positions are compared only for equality in the
  source (Python list equality in `point_in_geojson_geom`), never used
  arithmetically, so a position is modelled as `List Int`.
* Python dictionaries of admissible intersections are modelled as an
  optional association list (`None` in Python becomes `none`).
* The database is abstracted: a query either yields rows or fails; the
  executor model also carries the PostgreSQL transaction state that the
  savepoint discipline of `get_query_result` manipulates.
-/

namespace PGDB

/-- A GeoJSON coordinate position, as decoded from `json.loads` of an
`ST_AsGeoJSON` payload.  The source only compares positions for equality
(`point in coords`), so integer components are a faithful carrier. -/
abbrev Pos := List Int

/-- GeoJSON geometry object as consumed by `pgdb.py`: a `type` tag together
with the `coordinates` member of the corresponding nesting depth.  The code
never reads the members of a `GeometryCollection`, so that constructor
carries no payload. -/
inductive Geom where
  | point (coordinates : Pos)
  | lineString (coordinates : List Pos)
  | polygon (coordinates : List (List Pos))
  | multiLineString (coordinates : List (List Pos))
  | multiPolygon (coordinates : List (List (List Pos)))
  | geometryCollection
deriving DecidableEq, Repr

/-- Embedding of `point_in_geojson_geom` (pgdb.py lines 101-122): membership
of `point` in the vertex lists of `geom`, by exact coordinate match.
`Point` and `GeometryCollection` geometries fall through every `if` of the
source and reach the final `return False`. -/
def point_in_geojson_geom (point : Pos) (geom : Geom) : Bool :=
  match geom with
  | .lineString coords => coords.contains point
  | .polygon rings => rings.any (fun coords => coords.contains point)
  | .multiLineString parts => parts.any (fun coords => coords.contains point)
  | .multiPolygon pols => pols.any (fun rings => rings.any (fun coords => coords.contains point))
  | .point _ => false
  | .geometryCollection => false

/-- One candidate intersection row, the tuple produced by
`intersection_query` (pgdb.py lines 124-157) after the JSON geometry
payloads have been decoded: `row[0]`=t1id, `row[1]`=t2id, `row[2]`=gi,
`row[3]`=g1, `row[4]`=g2, `row[5]`=ST_AsText of the intersection,
`row[6]`=t1_crosses_t2, `row[7]`=ST_Dimension of the intersection. -/
structure Row where
  t1id : Int
  t2id : Int
  gi : Geom
  g1 : Geom
  g2 : Geom
  giText : String
  crosses : Bool
  dimension : Int
deriving DecidableEq, Repr

/-- The admissible-intersections configuration: a Python dict from table
name to the list of table names it may intersect, or `None` when no
configuration file was given.  A dict is modelled as an association list
with lookup by first matching key. -/
abbrev Admissibles := Option (List (String × List String))

/-- Lookup of `admissibles[table]` on the association-list model of the
Python dict. -/
def admissiblesLookup (a : List (String × List String)) (t : String) : Option (List String) :=
  (a.find? (fun p => p.1 == t)).map (fun p => p.2)

/-- Embedding of the admissibility gate condition of pgdb.py line 608:
`not admissibles or table not in admissibles or table2 not in admissibles[table]`.
`not admissibles` is Python truthiness: `None` or the empty dict. -/
def not_admissible_gate (admissibles : Admissibles) (table table2 : String) : Bool :=
  match admissibles with
  | none => true
  | some a =>
    a.isEmpty ||
      (match admissiblesLookup a table with
       | none => true
       | some ts => !(ts.contains table2))

/-- The positive form of the gate: the pair (table, table2) is admissible,
i.e. the configuration is present and `table2 ∈ admissibles[table]`. -/
def admissible_pair (admissibles : Admissibles) (table table2 : String) : Bool :=
  match admissibles with
  | none => false
  | some a =>
    match admissiblesLookup a table with
    | none => false
    | some ts => ts.contains table2

/-- The geometry type is `LineString` or `MultiLineString`
(`geom['type'] in ['LineString', 'MultiLineString']`). -/
def isLineType : Geom → Bool
  | .lineString _ => true
  | .multiLineString _ => true
  | _ => false

/-- The geometry type is `Polygon` or `MultiPolygon`
(`geom['type'] in ['Polygon', 'MultiPolygon']`). -/
def isPolygonType : Geom → Bool
  | .polygon _ => true
  | .multiPolygon _ => true
  | _ => false

/-- The geometry type is `Point` or `LineString` (negation of the topology
gate condition of pgdb.py line 615). -/
def isPointOrLineString : Geom → Bool
  | .point _ => true
  | .lineString _ => true
  | _ => false

/-- The geometry type is `GeometryCollection` (pgdb.py line 688). -/
def isGeometryCollection : Geom → Bool
  | .geometryCollection => true
  | _ => false

/-- The check points of pgdb.py lines 617-621: the single coordinate of a
`Point` intersection, or the first and last coordinate of a `LineString`
intersection.  `headD`/`getLastD` model the Python indexing
`coords[0]` / `coords[len(coords)-1]`, which the source only reaches for
the non-empty coordinate lists that `ST_AsGeoJSON` of a non-empty
intersection produces. -/
def check_points : Geom → List Pos
  | .point c => [c]
  | .lineString cs => [cs.headD [], cs.getLastD []]
  | _ => []

/-- Embedding of `PGDBManager._not_allowed_intersection_check`
(pgdb.py lines 595-650).  The `while` loop over `ptoi` advances while the
current check point is a vertex of `geom1` or of `geom2`; its final value
is the length of the matching prefix, modelled with `takeWhile`. -/
def not_allowed_intersection_check (table table2 : String) (row : Row)
    (admissibles : Admissibles) : String :=
  if not_admissible_gate admissibles table table2 then "not addmissible intersection"
  else if row.crosses then "crosses"
  else if !(isPointOrLineString row.gi) then "result intersection is not point or line"
  else
    let points := check_points row.gi
    if (isLineType row.g1 && isLineType row.g2) ||
       (isLineType row.g1 && isPolygonType row.g2) ||
       (isPolygonType row.g1 && isLineType row.g2) then
      let ptoi := (points.takeWhile (fun p =>
        point_in_geojson_geom p row.g1 || point_in_geojson_geom p row.g2)).length
      if ptoi == points.length then "invalid addmissible intersection"
      else "not a line-line or line-polygon intersection"
    else "not a line-line or line-polygon intersection"

/-- Embedding of the `IntersectGeomResult` record as constructed by the
scan loop (pgdb.py line 686):
`IntersectGeomResult(table, row[0], table2, row[1], row[5], msg)`. -/
structure IntersectGeomResult where
  table1 : String
  fid1 : Int
  table2 : String
  fid2 : Int
  int_geom : String
  msg : String
deriving DecidableEq, Repr

/-- Embedding of `NotAllowedIntersectionsResult` (pgdb.py lines 321-347):
the four violation buckets. -/
structure NotAllowedIntersectionsResult where
  point : List IntersectGeomResult
  line : List IntersectGeomResult
  polygon : List IntersectGeomResult
  collection : List IntersectGeomResult
deriving DecidableEq, Repr

/-- The empty result the scan starts from (pgdb.py line 667). -/
def emptyResult : NotAllowedIntersectionsResult :=
  { point := [], line := [], polygon := [], collection := [] }

/-- Total number of violations accumulated over the four buckets. -/
def totalSize (values : NotAllowedIntersectionsResult) : Nat :=
  values.point.length + values.line.length + values.polygon.length + values.collection.length

/-- Embedding of the bucket selection of pgdb.py lines 687-696: a
`GeometryCollection` intersection goes to `collection`; otherwise
`row[7]` (the dimension) selects `point` (0), `line` (1) or `polygon`
(anything else). -/
def bucket_value (values : NotAllowedIntersectionsResult) (row : Row)
    (value : IntersectGeomResult) : NotAllowedIntersectionsResult :=
  if isGeometryCollection row.gi then
    { values with collection := values.collection ++ [value] }
  else if row.dimension == 0 then
    { values with point := values.point ++ [value] }
  else if row.dimension == 1 then
    { values with line := values.line ++ [value] }
  else
    { values with polygon := values.polygon ++ [value] }

/-- Embedding of the row loop of pgdb.py lines 683-696 for one table pair:
classify every row, and when the message is truthy (non-empty string)
append the violation to the bucket selected by `bucket_value`. -/
def process_pair_rows (table table2 : String) (admissibles : Admissibles)
    (rows : List Row) (values : NotAllowedIntersectionsResult) :
    NotAllowedIntersectionsResult :=
  rows.foldl (fun vs row =>
    let msg := not_allowed_intersection_check table table2 row admissibles
    if msg.isEmpty then vs
    else bucket_value vs row
      { table1 := table, fid1 := row.t1id, table2 := table2, fid2 := row.t2id,
        int_geom := row.giText, msg := msg }) values

/-- Outcome of `get_query_result` as observed by `get_not_allowed_intersection`:
either the fetched rows, or an exception.  `driver` is the raw psycopg2
exception that `get_query_result` re-raises unchanged; `pgdbm` is a
`PGDBManagerError`, the only class caught by the handler at pgdb.py
line 675. -/
inductive DBErr where
  | driver
  | pgdbm
deriving DecidableEq, Repr

/-- How a run of `get_not_allowed_intersection` can abort instead of
returning a result: an exception the `except PGDBManagerError` clause does
not catch escapes the method, and on the very first pair a caught
`PGDBManagerError` leaves the local variable `rows` unassigned, so the
following `for row in rows` raises `UnboundLocalError`. -/
inductive ScanAbort where
  | uncaught (e : DBErr)
  | nameError
deriving DecidableEq, Repr

/-- The pair loop of `get_not_allowed_intersection` (pgdb.py lines 668-696).
`pairs` lists, for each `table2` in scan order, the outcome of
`get_query_result` on `intersection_query(schema, table, table2)`.
`rowsVar` carries the Python local variable `rows`, which is only
reassigned on a successful query: a caught `PGDBManagerError` leaves it
at the previous pair's value (per Python function-local scoping), and the
subsequent `for row in rows` then re-processes those stale rows under the
current `table2`. -/
def scan_pairs_loop (table : String) (admissibles : Admissibles)
    (pairs : List (String × Except DBErr (List Row)))
    (rowsVar : Option (List Row)) (values : NotAllowedIntersectionsResult) :
    Except ScanAbort NotAllowedIntersectionsResult :=
  match pairs with
  | [] => .ok values
  | (table2, qres) :: rest =>
    match qres with
    | .ok rows =>
      scan_pairs_loop table admissibles rest (some rows)
        (process_pair_rows table table2 admissibles rows values)
    | .error .pgdbm =>
      match rowsVar with
      | none => .error .nameError
      | some rows =>
        scan_pairs_loop table admissibles rest (some rows)
          (process_pair_rows table table2 admissibles rows values)
    | .error .driver => .error (.uncaught .driver)

/-- Embedding of `PGDBManager.get_not_allowed_intersection`
(pgdb.py lines 652-697), with the database abstracted into the per-pair
query outcomes `pairs`. -/
def get_not_allowed_intersection (table : String)
    (pairs : List (String × Except DBErr (List Row)))
    (admissibles : Admissibles) :
    Except ScanAbort NotAllowedIntersectionsResult :=
  scan_pairs_loop table admissibles pairs none emptyResult

/-- Rows as fetched by `cursor.fetchall()`; the payload shape is irrelevant
to the executor, integer tuples suffice. -/
abbrev DBRows := List (List Int)

/-- Server-side transaction state of the one long-lived connection:
whether the current transaction is in the failed (aborted) state, and the
stack of active savepoint names, most recent first. -/
structure PGState where
  aborted : Bool
  savepoints : List String
deriving DecidableEq, Repr

/-- The SQL statements `get_query_result` issues through `cursor.execute`. -/
inductive SqlStmt where
  | savepoint (name : String)
  | rollbackTo (name : String)
  | release (name : String)
  | query (q : String)
deriving DecidableEq, Repr

/-- PostgreSQL semantics of one `cursor.execute` call on the shared
connection.  `db` gives the outcome of the caller's own statements.  In
the failed-transaction state every statement errors except
`ROLLBACK TO SAVEPOINT` of a known savepoint, which clears the failure and
discards the savepoints established after it (keeping the target).
`RELEASE` discards the target savepoint and the ones after it.  A failing
statement puts the transaction into the failed state. -/
def server_exec (db : String → Except Unit DBRows) (st : PGState) (s : SqlStmt) :
    PGState × Except Unit DBRows :=
  match s with
  | .rollbackTo n =>
    if st.savepoints.contains n then
      ({ aborted := false, savepoints := st.savepoints.dropWhile (fun m => m != n) }, .ok [])
    else ({ st with aborted := true }, .error ())
  | .savepoint n =>
    if st.aborted then (st, .error ())
    else ({ st with savepoints := n :: st.savepoints }, .ok [])
  | .release n =>
    if st.aborted then (st, .error ())
    else if st.savepoints.contains n then
      ({ st with savepoints := (st.savepoints.dropWhile (fun m => m != n)).drop 1 }, .ok [])
    else ({ st with aborted := true }, .error ())
  | .query q =>
    if st.aborted then (st, .error ())
    else
      match db q with
      | .ok rows => (st, .ok rows)
      | .error _ => ({ st with aborted := true }, .error ())

/-- The exception surfaced by `get_query_result` to its caller:
the bare `raise` at pgdb.py line 460 propagates the underlying driver
exception unchanged, while `pgdbManagerError` is the wrapped form that the
docstring of the method announces (and that the other `PGDBManager`
methods construct themselves). -/
inductive RaisedError where
  | underlying
  | pgdbManagerError (msg : String)
deriving DecidableEq, Repr

/-- Embedding of `PGDBManager.get_query_result` (pgdb.py lines 441-463)
over the transaction-state model.  `sp` is the savepoint name generated by
`uuid.uuid1().hex`; its freshness is a hypothesis of the theorems.  The
`SAVEPOINT` statement runs outside the `try`, so its failure propagates
directly; a failure of the query (or of the merged `fetchall`) triggers
`ROLLBACK TO SAVEPOINT` and then re-raises; success triggers
`RELEASE SAVEPOINT` and returns the fetched rows. -/
def get_query_result (db : String → Except Unit DBRows) (st : PGState)
    (sp : String) (query : String) : PGState × Except RaisedError DBRows :=
  let r1 := server_exec db st (.savepoint sp)
  match r1.2 with
  | .error _ => (r1.1, .error .underlying)
  | .ok _ =>
    let r2 := server_exec db r1.1 (.query query)
    match r2.2 with
    | .ok rows =>
      let r3 := server_exec db r2.1 (.release sp)
      match r3.2 with
      | .ok _ => (r3.1, .ok rows)
      | .error _ => (r3.1, .error .underlying)
    | .error _ =>
      let r4 := server_exec db r2.1 (.rollbackTo sp)
      (r4.1, .error .underlying)

end PGDB

namespace PGMain

/-- Embedding of the intersect branch of `control_table`
(main.py lines 256-264): for the given `table`, the scan compares it with
the suffix of `tables` strictly after the first occurrence of `table`
(`i = tables.index(table) + 1; tables[i:]`), each comparison being the
ordered pair handed to `get_not_allowed_intersection`. -/
def control_table_pairs (tables : List String) (table : String) :
    List (String × String) :=
  let i := tables.indexOf table + 1
  if i < tables.length then (tables.drop i).map (fun t2 => (table, t2))
  else []

/-- The table pairs evaluated over a whole schema scan: `main` calls
`control_table` once for every table of `tables` in order
(main.py lines 310-327). -/
def schema_scan_pairs (tables : List String) : List (String × String) :=
  tables.flatMap (control_table_pairs tables)

end PGMain

namespace PGDB

/-- Admissibles configuration `{"a": ["b"]}` used by concrete instances. -/
def admAB : Admissibles := some [("a", ["b"])]

/-- A candidate row of an admissible line-polygon pair, not crossing, whose
`Point` intersection coordinate is a vertex of both geometries: the
shared-vertex touch of the specification's endpoint test. -/
def rowAllMatch : Row :=
  { t1id := 1, t2id := 2, gi := .point [0, 0],
    g1 := .lineString [[0, 0], [1, 1]],
    g2 := .polygon [[[0, 0], [2, 0], [2, 2], [0, 0]]],
    giText := "MULTIPOINT(0 0)", crosses := false, dimension := 0 }

/-- Same setup as `rowAllMatch` but the intersection point `[5, 7]` is a
vertex of neither geometry. -/
def rowNoMatch : Row :=
  { rowAllMatch with gi := .point [5, 7], giText := "MULTIPOINT(5 7)" }

/-- Same setup as `rowAllMatch` but with the crosses flag raised. -/
def rowCross : Row :=
  { rowAllMatch with crosses := true }

/-- Same setup as `rowAllMatch` but with a `Polygon` intersection geometry
of dimension 2. -/
def rowPoly : Row :=
  { rowAllMatch with
    gi := .polygon [[[0, 0], [1, 0], [1, 1], [0, 0]]]
    giText := "MULTIPOLYGON(((0 0,1 0,1 1,0 0)))"
    dimension := 2 }

/-- Same setup as `rowAllMatch` but with a `GeometryCollection`
intersection geometry, keeping dimension 0. -/
def rowGC : Row :=
  { rowAllMatch with gi := .geometryCollection }

/-- A sample violation record used by concrete instances. -/
def valSample : IntersectGeomResult :=
  { table1 := "a"
    fid1 := 1
    table2 := "b"
    fid2 := 2
    int_geom := "x"
    msg := "crosses" }

/-- Database model for the executor instances: statement `"q1"` fails,
every other statement yields one row `[7]`. -/
def dbC4 : String → Except Unit DBRows :=
  fun q => if q == "q1" then .error () else .ok [[7]]

/-- A healthy initial transaction state with no savepoints. -/
def pgSt0 : PGState :=
  { aborted := false, savepoints := [] }

/-- The violation record the scan constructs from `rowAllMatch` under the
pair (a, b). -/
def vAllMatch : IntersectGeomResult :=
  { table1 := "a"
    fid1 := 1
    table2 := "b"
    fid2 := 2
    int_geom := "MULTIPOINT(0 0)"
    msg := "invalid addmissible intersection" }

/-- The violation record the scan constructs from `rowNoMatch` under the
pair (a, b). -/
def vNoMatch : IntersectGeomResult :=
  { table1 := "a"
    fid1 := 1
    table2 := "b"
    fid2 := 2
    int_geom := "MULTIPOINT(5 7)"
    msg := "not a line-line or line-polygon intersection" }

/-- The violation record produced when the stale rows of pair (a, b) are
re-processed under the inadmissible pair (a, c). -/
def vStaleC : IntersectGeomResult :=
  { table1 := "a"
    fid1 := 1
    table2 := "c"
    fid2 := 2
    int_geom := "MULTIPOINT(0 0)"
    msg := "not addmissible intersection" }

end PGDB

namespace PGDB

/-- The admissibility gate of line 608 is the negation of the positive
admissibility predicate. -/
lemma not_admissible_gate_eq (admissibles : Admissibles) (t1 t2 : String) :
    not_admissible_gate admissibles t1 t2 = !admissible_pair admissibles t1 t2 := by
  cases admissibles with
  | none => rfl
  | some a =>
    cases a with
    | nil => rfl
    | cons p ps =>
      simp only [not_admissible_gate, admissible_pair, List.isEmpty_cons, Bool.false_or]
      cases admissiblesLookup (p :: ps) t1 with
      | none => rfl
      | some ts => simp

/-- Every branch of `_not_allowed_intersection_check` returns a non-empty
message string. -/
lemma check_isEmpty_false (t1 t2 : String) (row : Row) (adm : Admissibles) :
    (not_allowed_intersection_check t1 t2 row adm).isEmpty = false := by
  unfold not_allowed_intersection_check
  repeat first | rfl | split | dsimp only

/-- Appending a violation through the bucket selector grows the total
bucket content by exactly one. -/
lemma totalSize_bucket_value (v : NotAllowedIntersectionsResult) (row : Row)
    (value : IntersectGeomResult) :
    totalSize (bucket_value v row value) = totalSize v + 1 := by
  unfold bucket_value
  repeat' split
  all_goals simp [totalSize]; omega

/-- Processing the rows of one pair appends exactly one violation per row. -/
lemma totalSize_process_pair_rows (t1 t2 : String) (adm : Admissibles)
    (rows : List Row) (v : NotAllowedIntersectionsResult) :
    totalSize (process_pair_rows t1 t2 adm rows v) = totalSize v + rows.length := by
  induction rows generalizing v with
  | nil => rfl
  | cons r rs ih =>
    unfold process_pair_rows at ih ⊢
    simp only [List.foldl_cons]
    rw [ih, check_isEmpty_false]
    simp only [Bool.false_eq_true, if_false, totalSize_bucket_value, List.length_cons]
    omega

/-- C5: for every input row and admissibles mapping,
`_not_allowed_intersection_check` returns a non-empty message string, so
every row of a successful pair query is appended to exactly one bucket:
processing the rows of a pair grows the total bucket content by exactly
the number of rows, and the branch dropping a message-less row is never
taken. -/
theorem c5_every_row_gets_message_and_bucket (table table2 : String) (row : Row)
    (admissibles : Admissibles) (rows : List Row)
    (values : NotAllowedIntersectionsResult) :
    (not_allowed_intersection_check table table2 row admissibles).isEmpty = false ∧
    totalSize (process_pair_rows table table2 admissibles rows values) =
      totalSize values + rows.length :=
  ⟨check_isEmpty_false table table2 row admissibles,
   totalSize_process_pair_rows table table2 admissibles rows values⟩

/-- C6: whenever the admissibles mapping is absent, empty, misses `table`,
or its entry for `table` does not contain `table2`, classification returns
the message `not addmissible intersection` regardless of every other field
of the row. -/
theorem c6_admissibility_gate (table table2 : String) (row : Row)
    (admissibles : Admissibles)
    (h : admissible_pair admissibles table table2 = false) :
    not_allowed_intersection_check table table2 row admissibles =
      "not addmissible intersection" := by
  unfold not_allowed_intersection_check
  rw [not_admissible_gate_eq, h]
  rfl

/-- Witness for C6 at the empty configuration and at a configuration
missing the pair. -/
theorem c6_admissibility_gate_witness :
    not_allowed_intersection_check "a" "b" rowAllMatch none =
      "not addmissible intersection" ∧
    not_allowed_intersection_check "a" "c" rowAllMatch admAB =
      "not addmissible intersection" :=
  ⟨c6_admissibility_gate "a" "b" rowAllMatch none rfl,
   c6_admissibility_gate "a" "c" rowAllMatch admAB rfl⟩

/-- C7: for an admissible pair the cross test strictly precedes the
topology gate: a raised crosses flag yields `crosses` whatever the
intersection geometry is, and only a lowered flag with an intersection
that is neither Point nor LineString yields
`result intersection is not point or line`. -/
theorem c7_cross_precedes_topology (table table2 : String) (row : Row)
    (admissibles : Admissibles)
    (h : admissible_pair admissibles table table2 = true) :
    (row.crosses = true →
      not_allowed_intersection_check table table2 row admissibles = "crosses") ∧
    (row.crosses = false → isPointOrLineString row.gi = false →
      not_allowed_intersection_check table table2 row admissibles =
        "result intersection is not point or line") := by
  unfold not_allowed_intersection_check
  rw [not_admissible_gate_eq, h]
  constructor
  · intro hc
    rw [hc]
    rfl
  · intro hc hg
    rw [hc, hg]
    rfl

/-- Witness for C7 on a crossing row and on an areal intersection row. -/
theorem c7_cross_precedes_topology_witness :
    not_allowed_intersection_check "a" "b" rowCross admAB = "crosses" ∧
    not_allowed_intersection_check "a" "b" rowPoly admAB =
      "result intersection is not point or line" :=
  ⟨(c7_cross_precedes_topology "a" "b" rowCross admAB rfl).1 rfl,
   (c7_cross_precedes_topology "a" "b" rowPoly admAB rfl).2 rfl rfl⟩

/-- C8: every violation lands in exactly one bucket, chosen only from the
intersection geometry of the row: `GeometryCollection` takes priority and
goes to `collection` whatever the dimension is; otherwise dimension 0 goes
to `point`, dimension 1 to `line`, and anything else to `polygon`. -/
theorem c8_bucket_selection (values : NotAllowedIntersectionsResult) (row : Row)
    (value : IntersectGeomResult) :
    totalSize (bucket_value values row value) = totalSize values + 1 ∧
    (isGeometryCollection row.gi = true →
      bucket_value values row value =
        { values with collection := values.collection ++ [value] }) ∧
    (isGeometryCollection row.gi = false → row.dimension = 0 →
      bucket_value values row value =
        { values with point := values.point ++ [value] }) ∧
    (isGeometryCollection row.gi = false → row.dimension = 1 →
      bucket_value values row value =
        { values with line := values.line ++ [value] }) ∧
    (isGeometryCollection row.gi = false → (row.dimension = 0 → False) →
      (row.dimension = 1 → False) →
      bucket_value values row value =
        { values with polygon := values.polygon ++ [value] }) := by
  refine ⟨totalSize_bucket_value values row value, ?_, ?_, ?_, ?_⟩
  · intro h
    unfold bucket_value
    rw [h]
    rfl
  · intro h hd
    unfold bucket_value
    rw [h, hd]
    rfl
  · intro h hd
    unfold bucket_value
    rw [h, hd]
    rfl
  · intro h hd0 hd1
    unfold bucket_value
    rw [h]
    simp only [Bool.false_eq_true, if_false, beq_iff_eq]
    rw [if_neg hd0, if_neg hd1]

/-- Witness for C8: a dimension-0 GeometryCollection violation goes to the
collection bucket, and a dimension-2 one to the polygon bucket. -/
theorem c8_bucket_selection_witness :
    bucket_value emptyResult rowGC valSample =
      { emptyResult with collection := [valSample] } ∧
    bucket_value emptyResult rowPoly valSample =
      { emptyResult with polygon := [valSample] } :=
  ⟨(c8_bucket_selection emptyResult rowGC valSample).2.1 rfl,
   (c8_bucket_selection emptyResult rowPoly valSample).2.2.2.2 rfl
     (by decide) (by decide)⟩

/-- C1: evaluation of the code at the input of the claim.  On an
admissible, non-crossing line-polygon pair whose Point intersection is a
shared vertex of both geometries (every check point matches), the code
returns the violation message `invalid addmissible intersection` and the
scan places the row in the point bucket, instead of dropping the row as
the claim states. -/
theorem c1_matching_endpoints_still_flagged :
    not_allowed_intersection_check "a" "b" rowAllMatch admAB =
      "invalid addmissible intersection" ∧
    get_not_allowed_intersection "a" [("b", .ok [rowAllMatch])] admAB =
      .ok { point := [vAllMatch], line := [], polygon := [], collection := [] } := by
  constructor <;> rfl

/-- C2: evaluation of the code at the input of the claim.  Same setup as
C1 but the intersection point `[5, 7]` is a vertex of neither geometry (a
check point fails to match): the code returns
`not a line-line or line-polygon intersection`, not the
`invalid addmissible intersection` message stated by the claim. -/
theorem c2_unmatched_endpoint_message_mismatch :
    not_allowed_intersection_check "a" "b" rowNoMatch admAB =
      "not a line-line or line-polygon intersection" ∧
    get_not_allowed_intersection "a" [("b", .ok [rowNoMatch])] admAB =
      .ok { point := [vNoMatch], line := [], polygon := [], collection := [] } := by
  constructor <;> rfl

/-- C3: evaluation of the code at the inputs of the claim.  A pair whose
query fails with the raw driver error (the only error `get_query_result`
produces) escapes the `except PGDBManagerError` handler and aborts the
whole scan, losing the violations of the later healthy pair; a
`PGDBManagerError` on the very first pair leaves the loop variable `rows`
unbound (`UnboundLocalError`); and a `PGDBManagerError` on a later pair
re-processes the previous pair rows under the failing table, fabricating a
violation for the pair (a, c). -/
theorem c3_pair_query_failure_aborts_scan :
    get_not_allowed_intersection "a"
        [("b", .error .driver), ("c", .ok [rowAllMatch])] admAB =
      .error (.uncaught .driver) ∧
    get_not_allowed_intersection "a" [("b", .error .pgdbm)] admAB =
      .error .nameError ∧
    get_not_allowed_intersection "a"
        [("b", .ok [rowAllMatch]), ("c", .error .pgdbm)] admAB =
      .ok { point := [vAllMatch, vStaleC], line := [], polygon := [],
            collection := [] } := by
    refine ⟨rfl, rfl, rfl⟩

/-- C9: evaluation of the executor at a failing and at a succeeding
statement.  On failure `get_query_result` re-raises the underlying driver
exception unchanged (the bare `raise` of pgdb.py line 460), not a
`PGDBManagerError` wrapping it; on success it returns the fetched rows. -/
theorem c9_raw_driver_error_propagates :
    (get_query_result dbC4 pgSt0 "sp" "q1").2 = .error .underlying ∧
    (get_query_result dbC4 pgSt0 "sp" "q2").2 = .ok [[7]] := by
  constructor <;> rfl

/-- Failure path of the executor: from a healthy state with a fresh
savepoint name, a failing statement is rolled back to the savepoint, so
the error is surfaced with the transaction healthy again (the savepoint
itself survives its rollback, as in PostgreSQL). -/
lemma get_query_result_fail (db : String → Except Unit DBRows) (st : PGState)
    (sp q : String) (hab : st.aborted = false)
    (_hsp : st.savepoints.contains sp = false) (hq : db q = .error ()) :
    get_query_result db st sp q =
      ({ aborted := false, savepoints := sp :: st.savepoints },
       .error .underlying) := by
  simp [get_query_result, server_exec, hab, hq, List.contains_cons,
    List.dropWhile_cons]

/-- Success path of the executor: from a healthy state with a fresh
savepoint name, a succeeding statement returns its rows and the release
of the savepoint restores the transaction state exactly. -/
lemma get_query_result_ok (db : String → Except Unit DBRows) (st : PGState)
    (sp q : String) (rows : DBRows) (hab : st.aborted = false)
    (hsp : st.savepoints.contains sp = false) (hq : db q = .ok rows) :
    get_query_result db st sp q = (st, .ok rows) := by
  obtain ⟨ab, S⟩ := st
  simp_all [get_query_result, server_exec, List.contains_cons,
    List.dropWhile_cons]

/-- C4: the executor establishes a savepoint before the statement,
releases it on success returning the fetched rows, and rolls back to it on
failure before propagating the error, so the outer transaction stays
usable: in a sequence of a failing and then a succeeding statement on one
connection, the first call surfaces its error leaving the transaction
healthy, and the second call succeeds and returns its rows. -/
theorem c4_savepoint_isolation (db : String → Except Unit DBRows) (st : PGState)
    (sp1 sp2 q1 q2 : String) (rows2 : DBRows)
    (hab : st.aborted = false)
    (h1 : st.savepoints.contains sp1 = false)
    (h2 : st.savepoints.contains sp2 = false)
    (h12 : (sp2 == sp1) = false)
    (hq1 : db q1 = .error ())
    (hq2 : db q2 = .ok rows2) :
    (get_query_result db st sp1 q1).2 = .error .underlying ∧
    (get_query_result db st sp1 q1).1.aborted = false ∧
    (get_query_result db st sp1 q1).1.savepoints = sp1 :: st.savepoints ∧
    (get_query_result db (get_query_result db st sp1 q1).1 sp2 q2).2 =
      .ok rows2 ∧
    (get_query_result db st sp2 q2).2 = .ok rows2 ∧
    (get_query_result db st sp2 q2).1 = st := by
  rw [get_query_result_fail db st sp1 q1 hab h1 hq1]
  have hc : (sp1 :: st.savepoints).contains sp2 = false := by
    rw [List.contains_cons, h12, h2]
    rfl
  have hsecond :
      get_query_result db
        { aborted := false, savepoints := sp1 :: st.savepoints } sp2 q2 =
        ({ aborted := false, savepoints := sp1 :: st.savepoints }, .ok rows2) :=
    get_query_result_ok db _ sp2 q2 rows2 rfl hc hq2
  rw [get_query_result_ok db st sp2 q2 rows2 hab h2 hq2, hsecond]
  exact ⟨rfl, rfl, rfl, rfl, rfl, rfl⟩

/-- Witness for C4 at the concrete database `dbC4`: the failing statement
`q1` is isolated and the following `q2` returns its row. -/
theorem c4_savepoint_isolation_witness :
    (get_query_result dbC4 pgSt0 "s1" "q1").2 = .error .underlying ∧
    (get_query_result dbC4 (get_query_result dbC4 pgSt0 "s1" "q1").1
      "s2" "q2").2 = .ok [[7]] :=
  ⟨(c4_savepoint_isolation dbC4 pgSt0 "s1" "s2" "q1" "q2" [[7]]
      rfl rfl rfl rfl rfl rfl).1,
   (c4_savepoint_isolation dbC4 pgSt0 "s1" "s2" "q1" "q2" [[7]]
      rfl rfl rfl rfl rfl rfl).2.2.2.1⟩

end PGDB

namespace PGMain

/-- The guard of `control_table` is redundant with `drop`: past the end of
the table list the suffix is empty anyway. -/
lemma control_table_pairs_eq (tables : List String) (t : String) :
    control_table_pairs tables t =
      (tables.drop (tables.indexOf t + 1)).map (fun t2 => (t, t2)) := by
  unfold control_table_pairs
  dsimp only
  split
  · rfl
  · rename_i h
    rw [List.drop_eq_nil_of_le (by omega)]
    rfl

/-- Membership in the pairs of one `control_table` invocation. -/
lemma mem_control_table_pairs (tables : List String) (t a b : String) :
    (a, b) ∈ control_table_pairs tables t ↔
      a = t ∧ b ∈ tables.drop (tables.indexOf t + 1) := by
  rw [control_table_pairs_eq]
  simp only [List.mem_map, Prod.mk.injEq]
  constructor
  · rintro ⟨x, hx, rfl, rfl⟩
    exact ⟨rfl, hx⟩
  · rintro ⟨rfl, hb⟩
    exact ⟨b, hb, rfl, rfl⟩

/-- On a duplicate-free list, a suffix contains exactly the elements whose
unique index is at least the cut. -/
lemma mem_drop_iff_indexOf :
    ∀ (l : List String), l.Nodup → ∀ (b : String) (k : ℕ),
      (b ∈ l.drop k ↔ b ∈ l ∧ k ≤ l.indexOf b) := by
  intro l
  induction l with
  | nil =>
    intro _ b k
    simp
  | cons x xs ih =>
    intro h b k
    obtain ⟨hx, hxs⟩ := List.nodup_cons.mp h
    cases k with
    | zero => simp
    | succ k =>
      rw [List.drop_succ_cons, ih hxs b k]
      by_cases hbx : b = x
      · subst hbx
        rw [List.indexOf_cons_self]
        constructor
        · rintro ⟨hmem, _⟩
          exact absurd hmem hx
        · rintro ⟨_, hk⟩
          omega
      · rw [List.indexOf_cons_ne _ (fun he => hbx he.symm)]
        simp only [List.mem_cons, hbx, false_or]
        constructor
        · rintro ⟨hmem, hk⟩
          exact ⟨hmem, by omega⟩
        · rintro ⟨hmem, hk⟩
          exact ⟨hmem, by omega⟩

/-- Characterisation of the scanned pairs: on a duplicate-free table list,
(a, b) is scanned exactly when both tables occur and a occurs strictly
before b. -/
lemma mem_schema_scan_pairs {tables : List String} (h : tables.Nodup)
    (a b : String) :
    (a, b) ∈ schema_scan_pairs tables ↔
      a ∈ tables ∧ b ∈ tables ∧ tables.indexOf a < tables.indexOf b := by
  unfold schema_scan_pairs
  rw [List.mem_flatMap]
  constructor
  · rintro ⟨t, ht, hmem⟩
    obtain ⟨rfl, hb⟩ := (mem_control_table_pairs tables t a b).mp hmem
    obtain ⟨hbt, hk⟩ := (mem_drop_iff_indexOf tables h b _).mp hb
    exact ⟨ht, hbt, by omega⟩
  · rintro ⟨ha, hb, hlt⟩
    exact ⟨a, ha, (mem_control_table_pairs tables a a b).mpr
      ⟨rfl, (mem_drop_iff_indexOf tables h b _).mpr ⟨hb, by omega⟩⟩⟩

/-- On a duplicate-free table list the scanned pair list is itself
duplicate-free. -/
lemma schema_scan_pairs_nodup {tables : List String} (h : tables.Nodup) :
    (schema_scan_pairs tables).Nodup := by
  unfold schema_scan_pairs
  rw [List.nodup_flatMap]
  constructor
  · intro t _
    rw [control_table_pairs_eq]
    refine (List.nodup_map_iff_inj_on ?_).mpr ?_
    · exact (List.drop_sublist _ _).nodup h
    · intro x _ y _ hxy
      exact (Prod.mk.injEq _ _ _ _ ▸ hxy).2
  · refine h.imp ?_
    intro t t' hne p hp hp'
    obtain ⟨rfl, _⟩ := (mem_control_table_pairs tables t p.1 p.2).mp
      (by simpa using hp)
    obtain ⟨he, _⟩ := (mem_control_table_pairs tables t' p.1 p.2).mp
      (by simpa using hp')
    exact hne he

/-- C10: over a schema scan on a duplicate-free ordered table list, a pair
is evaluated exactly when its second table appears strictly after its
first table; the pair list has no repetitions, a pair is never also
evaluated in the opposite direction, and no table is paired with itself. -/
theorem c10_pairwise_combinations (tables : List String) (h : tables.Nodup) :
    (∀ a b : String, (a, b) ∈ schema_scan_pairs tables ↔
      a ∈ tables ∧ b ∈ tables ∧ tables.indexOf a < tables.indexOf b) ∧
    (schema_scan_pairs tables).Nodup ∧
    (∀ a b : String, (a, b) ∈ schema_scan_pairs tables →
      (b, a) ∈ schema_scan_pairs tables → False) ∧
    (∀ a : String, (a, a) ∈ schema_scan_pairs tables → False) := by
  refine ⟨fun a b => mem_schema_scan_pairs h a b, schema_scan_pairs_nodup h,
    ?_, ?_⟩
  · intro a b hab hba
    obtain ⟨_, _, h1⟩ := (mem_schema_scan_pairs h a b).mp hab
    obtain ⟨_, _, h2⟩ := (mem_schema_scan_pairs h b a).mp hba
    omega
  · intro a haa
    obtain ⟨_, _, h1⟩ := (mem_schema_scan_pairs h a a).mp haa
    omega

/-- Witness for C10 on the table list [a, b, c]: the forward pairs are
scanned. -/
theorem c10_pairwise_combinations_witness :
    ("a", "b") ∈ schema_scan_pairs ["a", "b", "c"] ∧
    ("b", "c") ∈ schema_scan_pairs ["a", "b", "c"] :=
  ⟨((c10_pairwise_combinations ["a", "b", "c"] (by decide)).1 "a" "b").mpr
    (by decide),
   ((c10_pairwise_combinations ["a", "b", "c"] (by decide)).1 "b" "c").mpr
    (by decide)⟩

end PGMain
